import Mathlib

/-!
# RecipeGem widget: state reconciliation, selection propagation, carousel buttons

Shallow embedding of the reconciliation core of the RecipeGem ChatGPT-app
widget (`src/web/src/Widget.tsx`, together with the widget variant kept in
`src/unnamed/part_000`).

Modelling conventions, matching the JavaScript/TypeScript source:
* an optional field of a `Partial<...>` record is an `Option`; the
  `selected` field distinguishes an absent field (`none`) from an explicit
  `null` (`some none`) from an authoritative recipe (`some (some r)`);
* JavaScript `a ?? b` on such a field sends both `undefined` and `null`
  to `b`;
* JavaScript string truthiness (`state.selected_id ? _ : _`) is
  "non-null and non-empty", captured by `strTruthy`;
* `String.prototype.trim` and `String.prototype.split(",")` are embedded
  character-by-character as `jsTrim` and `jsSplitComma`;
* the side-effecting `selectRecipe` coordinator is embedded as a function
  producing the resulting persisted state together with the ordered trace
  of its effects (`setState`, `callTool`), parameterised by the host's
  resolution of the awaited `callTool` promise.
-/

namespace RecipeGem

/-- The `sort` mode union type `"duration" | "complexity"` of the widget. -/
inductive SortMode where
  | duration
  | complexity
deriving DecidableEq

/-- `Recipe` from Widget.tsx lines 12-23. -/
structure Recipe where
  id : String
  imageUrl : String
  cuisine : List String
  title : String
  affordability : String
  complexity : String
  duration : Nat
  ingredients : List String
  steps : List String
  dietaryLabels : List String
deriving DecidableEq

/-- `applied_filters` record of `ToolOutput` (Widget.tsx line 29). -/
structure AppliedFilters where
  min_duration : Option Nat
  sort : Option SortMode
deriving DecidableEq

/-- `Partial<ToolOutput>` as consumed by the widget (Widget.tsx lines 25-30 and
line 43): every field may be absent.  `selected : Option (Option Recipe)`
keeps the three-way distinction absent / explicit null / recipe. -/
structure ToolOutputT where
  cuisine : Option (List String)
  results : Option (List Recipe)
  selected : Option (Option Recipe)
  applied_filters : Option AppliedFilters
deriving DecidableEq

/-- `WidgetState` (Widget.tsx lines 33-38), the persisted widget state. -/
structure WidgetState where
  cuisine : Option String
  min_duration : Option Nat
  sort : Option SortMode
  selected_id : Option String
deriving DecidableEq

/-- JavaScript truthiness of a string value: truthy iff non-empty. -/
def strTruthy (s : String) : Bool := s != ""

/-- `String.prototype.trim` on the character list: drop leading and trailing
whitespace. -/
def trimChars (l : List Char) : List Char :=
  ((l.dropWhile Char.isWhitespace).reverse.dropWhile Char.isWhitespace).reverse

/-- JavaScript `s.trim()`. -/
def jsTrim (s : String) : String := String.mk (trimChars s.data)

/-- Accumulator-passing splitter for `s.split(",")`: a comma closes the
current chunk; `"".split(",")` is `[""]`. -/
def splitCommaChars : List Char → List Char → List (List Char)
  | [], acc => [acc.reverse]
  | c :: cs, acc =>
    if c = ',' then acc.reverse :: splitCommaChars cs []
    else splitCommaChars cs (c :: acc)

/-- JavaScript `s.split(",")`. -/
def jsSplitComma (s : String) : List String :=
  (splitCommaChars s.data []).map String.mk

/-- Widget.tsx line 59: `const results: Recipe[] = toolOutput.results ?? [];`. -/
def resultsOf (out : ToolOutputT) : List Recipe := out.results.getD []

/-- Widget.tsx lines 60-62: the reconciled `selected` value.  The
authoritative `toolOutput.selected`, when a non-null recipe, wins; otherwise
the truthy-guarded local lookup
`state.selected_id ? results.find((s) => s.id === state.selected_id) ?? null : null`
runs.  (`src/unnamed/part_000` lines 78-80 are identical.) -/
def selectedOf (out : ToolOutputT) (state : WidgetState) : Option Recipe :=
  match out.selected with
  | some (some r) => some r
  | _ =>
    match state.selected_id with
    | some sid =>
      if strTruthy sid then (resultsOf out).find? (fun s => s.id == sid)
      else none
    | none => none

/-- Widget.tsx lines 66-69: the header string, derived from the latest
payload's cuisine list only (the `let` is inlined). -/
def header (out : ToolOutputT) : String :=
  if (out.cuisine.getD []).length != 0 then
    "Recipes in " ++ String.intercalate ", " (out.cuisine.getD [])
  else "RecipeGem"

/-- The cuisine argument of the outbound refresh call is a list
(Widget.tsx) or a string (`part_000`), matching the two payload shapes of
the host interface. -/
inductive CuisineValue where
  | list (l : List String)
  | str (s : String)
deriving DecidableEq

/-- Argument object of the outbound `explore_recipe` call
(Widget.tsx lines 80-85, `part_000` line 98). -/
structure ToolCallArgs where
  cuisine : CuisineValue
  min_duration : Option Nat
  sort : Option SortMode
  selected_id : String
deriving DecidableEq

/-- Observable effects of the selection coordinator, in program order. -/
inductive Event where
  | setState (s : WidgetState)
  | callTool (name : String) (args : ToolCallArgs)
deriving DecidableEq

/-- Whether an event is an outbound tool call. -/
def Event.isCallTool : Event → Bool
  | Event.callTool _ _ => true
  | _ => false

/-- Widget.tsx lines 73-74: the cuisine list for the refresh call — the
payload's list if present, otherwise the locally-seeded comma string split,
trimmed entry-wise, with falsy (empty) entries dropped. -/
def cuisineListFor (out : ToolOutputT) (state : WidgetState) : List String :=
  match out.cuisine with
  | some l => l
  | none =>
    match state.cuisine with
    | some c =>
      if strTruthy c then ((jsSplitComma c).map jsTrim).filter strTruthy
      else []
    | none => []

/-- Widget.tsx lines 72-87, `async function selectRecipe(id)`, run to
completion against a host whose `callTool` promise resolves as `outcome`.
Returns the function's own result (an `await` of a rejected promise throws
out of the async function), the persisted state after the run, and the
ordered effect trace.  The `setState` happens unconditionally and before the
guarded `callTool`; there is no catch, no retry and no rollback. -/
def selectRecipeRun (out : ToolOutputT) (state : WidgetState) (canCallTool : Bool)
    (id : String) (outcome : Except String Unit) :
    Except String Unit × WidgetState × List Event :=
  let cuisineList := cuisineListFor out state
  let newState := { state with selected_id := some id }
  if canCallTool then
    let call := Event.callTool "explore_recipe"
      { cuisine := CuisineValue.list cuisineList, min_duration := state.min_duration,
        sort := state.sort, selected_id := id }
    match outcome with
    | Except.ok _ => (Except.ok (), newState, [Event.setState newState, call])
    | Except.error e => (Except.error e, newState, [Event.setState newState, call])
  else
    (Except.ok (), newState, [Event.setState newState])

/-- `src/unnamed/part_000` lines 90-100: the string-shaped variant of the
coordinator, `const cuisine = (toolOutput.cuisine ?? state.cuisine ?? "").trim()`. -/
def selectRecipeRunStr (outCuisine : Option String) (state : WidgetState)
    (canCallTool : Bool) (id : String) (outcome : Except String Unit) :
    Except String Unit × WidgetState × List Event :=
  let cuisine := jsTrim (outCuisine.getD (state.cuisine.getD ""))
  let newState := { state with selected_id := some id }
  if canCallTool then
    let call := Event.callTool "explore_recipe"
      { cuisine := CuisineValue.str cuisine, min_duration := state.min_duration,
        sort := state.sort, selected_id := id }
    match outcome with
    | Except.ok _ => (Except.ok (), newState, [Event.setState newState, call])
    | Except.error e => (Except.error e, newState, [Event.setState newState, call])
  else
    (Except.ok (), newState, [Event.setState newState])

/-- Modelled from the spec: the scroll engine (embla-carousel, an external
dependency, not part of this repository's sources) tracks a scroll position
over the results sequence as a selected snap index among `snapCount` scroll
snaps; each snap corresponds to at least one result slide. -/
structure EmblaEngine where
  snapCount : Nat
  selectedSnap : Nat
deriving DecidableEq

/-- Modelled from the spec: `canScrollPrev()` — a previous snap exists. -/
def EmblaEngine.canScrollPrev (e : EmblaEngine) : Bool :=
  decide (0 < e.selectedSnap)

/-- Modelled from the spec: `canScrollNext()` — a following snap exists. -/
def EmblaEngine.canScrollNext (e : EmblaEngine) : Bool :=
  decide (e.selectedSnap + 1 < e.snapCount)

/-- Modelled from the spec: engine well-formedness — with no snaps the
selected snap index is 0, otherwise it is in range. -/
def EmblaEngine.wf (e : EmblaEngine) : Prop :=
  e.selectedSnap = 0 ∨ e.selectedSnap < e.snapCount

/-- The pair of navigation booleans held in React state
(`part_000` lines 47-48). -/
structure CarouselButtons where
  canPrev : Bool
  canNext : Bool
deriving DecidableEq

/-- `part_000` lines 52-55, `updateButtons`: read both booleans from the
engine's current answers. -/
def updateButtons (api : EmblaEngine) : CarouselButtons :=
  { canPrev := api.canScrollPrev, canNext := api.canScrollNext }

/-- The engine notifications the controller subscribes to
(`part_000` lines 57-58). -/
inductive EmblaEvent where
  | select
  | reInit
deriving DecidableEq

/-- One notification step of the carousel controller: `updateButtons` is
the handler for both `select` and `reInit` (`part_000` lines 56-62); the
previous button values `_prev` are discarded, never reused. -/
def controllerStep (api : EmblaEngine) (ev : EmblaEvent)
    (_prev : CarouselButtons) : CarouselButtons :=
  match ev with
  | EmblaEvent.select => updateButtons api
  | EmblaEvent.reInit => updateButtons api

/-! ## Concrete inputs used by witnesses and the counterexample -/

/-- A concrete recipe. -/
def sampleRecipe : Recipe :=
  { id := "r1", imageUrl := "img", cuisine := ["Italian"], title := "Pasta",
    affordability := "affordable", complexity := "simple", duration := 12,
    ingredients := ["pasta"], steps := ["boil"], dietaryLabels := [] }

/-- A concrete recipe whose identifier is the empty string. -/
def emptyIdRecipe : Recipe :=
  { id := "", imageUrl := "img", cuisine := [], title := "NoId",
    affordability := "affordable", complexity := "simple", duration := 5,
    ingredients := [], steps := [], dietaryLabels := [] }

/-- Payload with an authoritative selected recipe. -/
def outAuth : ToolOutputT :=
  { cuisine := some ["Italian"], results := some [],
    selected := some (some sampleRecipe), applied_filters := none }

/-- State pointing at a different id than the authoritative selection. -/
def stateOther : WidgetState :=
  { cuisine := none, min_duration := none, sort := none,
    selected_id := some "other" }

/-- Payload with `selected` absent and one result whose id is `""`. -/
def outEmptyId : ToolOutputT :=
  { cuisine := none, results := some [emptyIdRecipe], selected := none,
    applied_filters := none }

/-- State whose `selected_id` is the empty string. -/
def stateEmptyId : WidgetState :=
  { cuisine := none, min_duration := none, sort := none,
    selected_id := some "" }

/-- Payload with an explicit `selected: null` and one matching result. -/
def outNullSel : ToolOutputT :=
  { cuisine := none, results := some [sampleRecipe], selected := some none,
    applied_filters := none }

/-- State selecting `sampleRecipe`'s id. -/
def stateR1 : WidgetState :=
  { cuisine := none, min_duration := none, sort := none,
    selected_id := some "r1" }

/-- Payload carrying a host-supplied cuisine list. -/
def outListCuisine : ToolOutputT :=
  { cuisine := some ["Italian", "Thai"], results := some [],
    selected := none, applied_filters := none }

/-- State with filter criteria seeded from call parameters. -/
def stateSeeded : WidgetState :=
  { cuisine := some "Italian, Thai", min_duration := some 10,
    sort := some SortMode.duration, selected_id := none }

/-- The absent payload, `useToolOutput() ?? {}` before any tool response. -/
def noPayload : ToolOutputT :=
  { cuisine := none, results := none, selected := none,
    applied_filters := none }

/-- Payload with no cuisine field, for the locally-derived cuisine list. -/
def outNoCuisine : ToolOutputT :=
  { cuisine := none, results := none, selected := none,
    applied_filters := none }

/-- State seeded with a messy comma-separated cuisine string. -/
def stateMessy : WidgetState :=
  { cuisine := some " Italian ,  , Thai ", min_duration := none,
    sort := none, selected_id := none }

/-! ## Helper lemmas -/

/-- When the payload's `selected` is a non-null recipe, the `??` chain
returns it. -/
theorem selectedOf_auth (out : ToolOutputT) (state : WidgetState) (r : Recipe)
    (h : out.selected = some (some r)) : selectedOf out state = some r := by
  unfold selectedOf
  rw [h]

/-- When the payload's `selected` is absent or null, the `??` chain falls
through to the truthy-guarded local lookup. -/
theorem selectedOf_fallback (out : ToolOutputT) (state : WidgetState)
    (hsel : out.selected = none ∨ out.selected = some none) :
    selectedOf out state =
      match state.selected_id with
      | some sid =>
        if strTruthy sid then (resultsOf out).find? (fun s => s.id == sid)
        else none
      | none => none := by
  unfold selectedOf
  rcases hsel with h | h <;> rw [h]

/-- The head of `dropWhile p` never satisfies `p`. -/
theorem head?_dropWhile_not {α : Type} (p : α → Bool) (l : List α) {c : α}
    (h : (l.dropWhile p).head? = some c) : p c = false := by
  induction l with
  | nil => simp [List.dropWhile] at h
  | cons a t ih =>
    rw [List.dropWhile_cons] at h
    by_cases hpa : p a = true
    · rw [if_pos hpa] at h
      exact ih h
    · rw [if_neg hpa] at h
      simp only [List.head?_cons, Option.some.injEq] at h
      subst h
      exact Bool.eq_false_iff.mpr hpa

/-- A non-empty trimmed character list contains a non-whitespace character. -/
theorem trimChars_has_nonWhitespace {l : List Char} (h : trimChars l ≠ []) :
    ∃ c ∈ trimChars l, c.isWhitespace = false := by
  unfold trimChars at h ⊢
  cases hm : (l.dropWhile Char.isWhitespace).reverse.dropWhile Char.isWhitespace with
  | nil => rw [hm] at h; simp at h
  | cons c t =>
    refine ⟨c, ?_, ?_⟩
    · exact List.mem_reverse.mpr (List.mem_cons_self c t)
    · exact head?_dropWhile_not Char.isWhitespace
        (l.dropWhile Char.isWhitespace).reverse (by rw [hm]; rfl)

/-! ## Claim theorems -/

/-- C1: for every result payload whose `selected` field is a non-null
recipe `r`, the reconciled view's `selected` equals `r`, for every value of
the persisted `selected_id`: the authoritative `selected` field always wins
over the local identifier lookup. -/
theorem authoritative_selected_wins (out : ToolOutputT) (state : WidgetState)
    (r : Recipe) (h : out.selected = some (some r)) :
    selectedOf out state = some r :=
  selectedOf_auth out state r h

/-- C1 witness: a concrete payload with an authoritative selection and a
persisted state pointing at a different id. -/
theorem authoritative_selected_wins_witness :
    outAuth.selected = some (some sampleRecipe) ∧
    selectedOf outAuth stateOther = some sampleRecipe :=
  ⟨rfl, authoritative_selected_wins outAuth stateOther sampleRecipe rfl⟩

/-- C2 counterexample: with `selected` absent, `selected_id = ""` and a
result whose identifier is `""`, the claim demands that the reconciled
`selected` be that element, but the truthiness guard
`state.selected_id ? ... : null` short-circuits the empty string to the
null branch, so the code yields `none`. -/
theorem lookup_empty_id_counterexample :
    outEmptyId.selected = none ∧
    stateEmptyId.selected_id = some "" ∧
    emptyIdRecipe ∈ resultsOf outEmptyId ∧
    emptyIdRecipe.id = "" ∧
    selectedOf outEmptyId stateEmptyId = none ∧
    selectedOf outEmptyId stateEmptyId ≠ some emptyIdRecipe := by
  refine ⟨rfl, rfl, ?_, rfl, rfl, ?_⟩ <;> decide

/-- C2 (amended): for every payload whose `selected` is absent or null and
every persisted state with `selected_id = id` where `id` is non-empty, the
reconciled `selected` is `none` when no result carries identifier `id`, and
is the unique result carrying identifier `id` when one exists.  (When `id`
is the empty string the guard resolves to no selection without a lookup.) -/
theorem lookup_selected_amended (out : ToolOutputT) (state : WidgetState)
    (id : String) (hsel : out.selected = none ∨ out.selected = some none)
    (hid : state.selected_id = some id) (hne : id ≠ "") :
    ((∀ r ∈ resultsOf out, r.id ≠ id) → selectedOf out state = none) ∧
    (∀ r ∈ resultsOf out, r.id = id →
      (∀ r₂ ∈ resultsOf out, r₂.id = id → r₂ = r) →
      selectedOf out state = some r) := by
  have hbase0 : selectedOf out state =
      if strTruthy id = true then (resultsOf out).find? (fun s => s.id == id)
      else none := by
    rw [selectedOf_fallback out state hsel, hid]
  have hbase : selectedOf out state =
      (resultsOf out).find? (fun s => s.id == id) := by
    rw [hbase0, if_pos (by simpa [strTruthy] using hne)]
  constructor
  · intro hnone
    rw [hbase, List.find?_eq_none]
    intro r hr
    simpa using hnone r hr
  · intro r hr hrid huniq
    rw [hbase]
    have hsome : ((resultsOf out).find? (fun s => s.id == id)).isSome := by
      rw [List.find?_isSome]
      exact ⟨r, hr, by simp [hrid]⟩
    obtain ⟨y, hy⟩ := Option.isSome_iff_exists.mp hsome
    have hy_mem := List.mem_of_find?_eq_some hy
    have hy_id : y.id = id := by simpa using List.find?_some hy
    rw [hy, huniq y hy_mem hy_id]

/-- C2 witness: with an explicit `selected: null`, a non-empty id present
in the results resolves to its recipe via the amended statement. -/
theorem lookup_selected_amended_witness :
    selectedOf outNullSel stateR1 = some sampleRecipe :=
  (lookup_selected_amended outNullSel stateR1 "r1" (Or.inr rfl) rfl
    (by decide)).2 sampleRecipe (by decide) rfl (by decide)

/-- C3: for every payload, state, capability flag, string `id` (present in
the results or not — no existence check occurs) and call outcome,
`selectRecipe(id)` persists `selected_id = id`, and its effect trace starts
with that synchronous `setState`; everything after it is the (possible)
outbound call. -/
theorem selectRecipe_optimistic_first (out : ToolOutputT) (state : WidgetState)
    (canCallTool : Bool) (id : String) (outcome : Except String Unit) :
    (selectRecipeRun out state canCallTool id outcome).2.1.selected_id = some id ∧
    ∃ tail,
      (selectRecipeRun out state canCallTool id outcome).2.2 =
        Event.setState { state with selected_id := some id } :: tail ∧
      ∀ e ∈ tail, e.isCallTool = true := by
  cases canCallTool with
  | false =>
    exact ⟨rfl, [], rfl, by intro e he; exact absurd he (List.not_mem_nil e)⟩
  | true =>
    cases outcome with
    | ok u =>
      refine ⟨rfl, [Event.callTool "explore_recipe"
        { cuisine := CuisineValue.list (cuisineListFor out state),
          min_duration := state.min_duration, sort := state.sort,
          selected_id := id }], rfl, ?_⟩
      intro e he
      rw [List.mem_singleton] at he
      rw [he]
      rfl
    | error msg =>
      refine ⟨rfl, [Event.callTool "explore_recipe"
        { cuisine := CuisineValue.list (cuisineListFor out state),
          min_duration := state.min_duration, sort := state.sort,
          selected_id := id }], rfl, ?_⟩
      intro e he
      rw [List.mem_singleton] at he
      rw [he]
      rfl

/-- C4: with the host capability absent, `selectRecipe(id)` completes
normally (no throw), emits no outbound call, and still applies the local
`selected_id` update — for every payload, state, id and would-be outcome. -/
theorem selectRecipe_no_capability (out : ToolOutputT) (state : WidgetState)
    (id : String) (outcome : Except String Unit) :
    (selectRecipeRun out state false id outcome).1 = Except.ok () ∧
    (selectRecipeRun out state false id outcome).2.1 =
      { state with selected_id := some id } ∧
    ∀ e ∈ (selectRecipeRun out state false id outcome).2.2,
      e.isCallTool = false := by
  refine ⟨rfl, rfl, ?_⟩
  intro e he
  rw [show (selectRecipeRun out state false id outcome).2.2 =
    [Event.setState { state with selected_id := some id }] from rfl,
    List.mem_singleton] at he
  rw [he]
  rfl

/-- C5: every dispatched refresh call uses tool name `explore_recipe` with
exactly the argument object `{ cuisine, min_duration, sort, selected_id }`;
the cuisine is forwarded in the host's shape: the payload's list is passed
through unchanged (Widget.tsx), and in the string-shaped variant a
host-supplied normalized (trim-fixed) string is passed through unchanged. -/
theorem refresh_call_shape (out : ToolOutputT) (state : WidgetState)
    (id : String) (outcome : Except String Unit) (l : List String) (c : String)
    (hl : out.cuisine = some l) (hc : jsTrim c = c) :
    (selectRecipeRun out state true id outcome).2.2.filter Event.isCallTool =
      [Event.callTool "explore_recipe"
        { cuisine := CuisineValue.list l, min_duration := state.min_duration,
          sort := state.sort, selected_id := id }] ∧
    (selectRecipeRunStr (some c) state true id outcome).2.2.filter Event.isCallTool =
      [Event.callTool "explore_recipe"
        { cuisine := CuisineValue.str c, min_duration := state.min_duration,
          sort := state.sort, selected_id := id }] := by
  have hcl : cuisineListFor out state = l := by
    unfold cuisineListFor
    rw [hl]
  cases outcome with
  | ok u =>
    constructor
    · simp [selectRecipeRun, Event.isCallTool, hcl]
    · simp [selectRecipeRunStr, Event.isCallTool, hc]
  | error msg =>
    constructor
    · simp [selectRecipeRun, Event.isCallTool, hcl]
    · simp [selectRecipeRunStr, Event.isCallTool, hc]

/-- C5 witness: concrete dispatches in both shapes. -/
theorem refresh_call_shape_witness :
    (selectRecipeRun outListCuisine stateSeeded true "r2"
      (Except.ok ())).2.2.filter Event.isCallTool =
      [Event.callTool "explore_recipe"
        { cuisine := CuisineValue.list ["Italian", "Thai"],
          min_duration := some 10, sort := some SortMode.duration,
          selected_id := "r2" }] ∧
    (selectRecipeRunStr (some "Italian, Thai") stateSeeded true "r2"
      (Except.ok ())).2.2.filter Event.isCallTool =
      [Event.callTool "explore_recipe"
        { cuisine := CuisineValue.str "Italian, Thai",
          min_duration := some 10, sort := some SortMode.duration,
          selected_id := "r2" }] :=
  refresh_call_shape outListCuisine stateSeeded "r2" (Except.ok ())
    ["Italian", "Thai"] "Italian, Thai" rfl (by decide)

/-- C6: when the remote refresh call rejects, the rejection propagates out
of the coordinator, but the persisted state and effect trace are identical
to the success case — `selected_id` stays `id` (no rollback), exactly one
outbound call was made (no retry), and a subsequently delivered
authoritative payload can still override the displayed selection. -/
theorem refresh_failure_no_rollback (out : ToolOutputT) (state : WidgetState)
    (id msg : String) :
    (selectRecipeRun out state true id (Except.error msg)).1 =
      Except.error msg ∧
    (selectRecipeRun out state true id (Except.error msg)).2.1.selected_id =
      some id ∧
    (selectRecipeRun out state true id (Except.error msg)).2 =
      (selectRecipeRun out state true id (Except.ok ())).2 ∧
    ((selectRecipeRun out state true id
      (Except.error msg)).2.2.filter Event.isCallTool).length = 1 ∧
    ∀ (out₂ : ToolOutputT) (r : Recipe), out₂.selected = some (some r) →
      selectedOf out₂
        (selectRecipeRun out state true id (Except.error msg)).2.1 = some r := by
  refine ⟨rfl, rfl, rfl, ?_, ?_⟩
  · simp [selectRecipeRun, Event.isCallTool]
  · intro out₂ r h
    exact selectedOf_auth out₂ _ r h

/-- C6 witness: a concrete failed refresh keeps the optimistic selection
and a later authoritative payload overrides it. -/
theorem refresh_failure_no_rollback_witness :
    (selectRecipeRun outListCuisine stateSeeded true "r2"
      (Except.error "network")).2.1.selected_id = some "r2" ∧
    selectedOf outAuth
      (selectRecipeRun outListCuisine stateSeeded true "r2"
        (Except.error "network")).2.1 = some sampleRecipe :=
  ⟨(refresh_failure_no_rollback outListCuisine stateSeeded "r2" "network").2.1,
   (refresh_failure_no_rollback outListCuisine stateSeeded "r2"
      "network").2.2.2.2 outAuth sampleRecipe rfl⟩

/-- C7: before the first payload arrives the reconciled view has an empty
results list and a null selection, for every persisted state (hence every
`selected_id`). -/
theorem no_payload_empty_view (state : WidgetState) :
    resultsOf noPayload = [] ∧ selectedOf noPayload state = none := by
  refine ⟨rfl, ?_⟩
  cases h : state.selected_id with
  | none =>
    rw [selectedOf_fallback noPayload state (Or.inl rfl), h]
  | some sid =>
    have hred : selectedOf noPayload state =
        if strTruthy sid = true
        then (resultsOf noPayload).find? (fun s => s.id == sid)
        else none := by
      rw [selectedOf_fallback noPayload state (Or.inl rfl), h]
    rw [hred]
    by_cases ht : strTruthy sid = true
    · rw [if_pos ht]
      rfl
    · rw [if_neg ht]

/-- C8: the header is `"Recipes in {joined cuisines}"` exactly when the
latest payload's resolved cuisine list is non-empty, and the fallback
`"RecipeGem"` otherwise; in particular with no payload at all (whatever
cuisine the call parameters seeded into state — `header` does not read the
state), the fallback path is taken. -/
theorem header_formula (out : ToolOutputT) :
    (out.cuisine.getD [] ≠ [] →
      header out =
        "Recipes in " ++ String.intercalate ", " (out.cuisine.getD [])) ∧
    (out.cuisine.getD [] = [] → header out = "RecipeGem") ∧
    header noPayload = "RecipeGem" := by
  refine ⟨?_, ?_, rfl⟩
  · intro h
    have hlen : (out.cuisine.getD []).length ≠ 0 := by
      simpa [List.length_eq_zero] using h
    unfold header
    rw [if_pos (by simpa using hlen)]
  · intro h
    unfold header
    rw [if_neg (by simp [h])]

/-- C8 witness: a payload resolving `["Italian"]` formats the header, and
the no-payload view falls back to the generic title. -/
theorem header_formula_witness :
    header outAuth = "Recipes in Italian" ∧ header noPayload = "RecipeGem" :=
  ⟨((header_formula outAuth).1 (by decide)).trans (by decide),
   (header_formula noPayload).2.2⟩

/-- C9: on every `select` and every `reInit` notification the controller's
booleans are recomputed to the engine's current answers (the previous
values are discarded, never stale), and when the results list is empty both
are false. -/
theorem carousel_buttons_consistent (api : EmblaEngine) (results : List Recipe)
    (ev : EmblaEvent) (prev : CarouselButtons)
    (hsnap : api.snapCount ≤ results.length) (hwf : api.wf) :
    controllerStep api ev prev = updateButtons api ∧
    (results = [] → (controllerStep api ev prev).canPrev = false ∧
      (controllerStep api ev prev).canNext = false) := by
  have hstep : controllerStep api ev prev = updateButtons api := by
    cases ev <;> rfl
  refine ⟨hstep, ?_⟩
  intro hres
  subst hres
  have h0 : api.snapCount = 0 := Nat.le_zero.mp (by simpa using hsnap)
  have h1 : api.selectedSnap = 0 := by
    rcases hwf with h | h
    · exact h
    · omega
  rw [hstep]
  constructor
  · simp [updateButtons, EmblaEngine.canScrollPrev, h1]
  · simp [updateButtons, EmblaEngine.canScrollNext, h0]

/-- C9 witness: an empty result set with stale `true` booleans is
recomputed to `false`/`false` on a `reInit` notification. -/
theorem carousel_buttons_consistent_witness :
    (controllerStep ⟨0, 0⟩ EmblaEvent.reInit ⟨true, true⟩).canPrev = false ∧
    (controllerStep ⟨0, 0⟩ EmblaEvent.reInit ⟨true, true⟩).canNext = false :=
  (carousel_buttons_consistent ⟨0, 0⟩ [] EmblaEvent.reInit ⟨true, true⟩
    (by decide) (Or.inl rfl)).2 rfl

/-- C10: when the payload supplies no cuisine, every entry of the locally
derived cuisine list (comma-split, trimmed, falsy entries dropped) is
non-empty and contains a non-whitespace character — never an empty or
whitespace-only string. -/
theorem cuisine_list_no_blank (out : ToolOutputT) (state : WidgetState)
    (h : out.cuisine = none) :
    ∀ x ∈ cuisineListFor out state,
      x ≠ "" ∧ ∃ ch ∈ x.data, ch.isWhitespace = false := by
  intro x hx
  unfold cuisineListFor at hx
  rw [h] at hx
  cases hst : state.cuisine with
  | none =>
    rw [hst] at hx
    exact absurd hx (List.not_mem_nil x)
  | some c =>
    rw [hst] at hx
    have hx₂ : x ∈ if strTruthy c = true
        then ((jsSplitComma c).map jsTrim).filter strTruthy
        else ([] : List String) := hx
    by_cases htr : strTruthy c = true
    · rw [if_pos htr, List.mem_filter] at hx₂
      obtain ⟨hmem, htruthy⟩ := hx₂
      rw [List.mem_map] at hmem
      obtain ⟨y, _, rfl⟩ := hmem
      have hne : jsTrim y ≠ "" := by simpa [strTruthy] using htruthy
      refine ⟨hne, ?_⟩
      have hnil : trimChars y.data ≠ [] := by
        intro hn
        exact hne (String.ext (by rw [show (jsTrim y).data = trimChars y.data from rfl, hn]))
      obtain ⟨ch, hch, hw⟩ := trimChars_has_nonWhitespace hnil
      exact ⟨ch, hch, hw⟩
    · rw [if_neg htr] at hx₂
      exact absurd hx₂ (List.not_mem_nil x)

/-- C10 witness: the messy seed string `" Italian ,  , Thai "` yields
`["Italian", "Thai"]`, and the theorem applies to its first entry. -/
theorem cuisine_list_no_blank_witness :
    "Italian" ∈ cuisineListFor outNoCuisine stateMessy ∧
    ("Italian" ≠ "" ∧ ∃ ch ∈ ("Italian" : String).data, ch.isWhitespace = false) :=
  ⟨by decide,
   cuisine_list_no_blank outNoCuisine stateMessy rfl "Italian" (by decide)⟩

end RecipeGem
